import Mathlib

/-!
Verification of `packages/react/src/ReactBaseClasses.js` and
`packages/react/src/React.js` in a shallow embedding.

JavaScript values are modelled by an inductive type `JSValue`; component
instances by their list of own fields together with a (flattened) prototype;
`setState` / `forceUpdate` by pure functions that return the (unchanged)
instance, the list of calls forwarded to the updater, and the error thrown,
if any.  Build mode (`__DEV__`) is an explicit `Bool` parameter.
-/

/-- A JavaScript value.  Objects, functions and symbols are identified by a
heap id; primitives carry their value. -/
inductive JSValue where
  | undefined
  | null
  | boolean (b : Bool)
  | number (n : Int)
  | string (s : String)
  | object (id : Nat)
  | function (id : Nat)
  | symbol (id : Nat)
deriving DecidableEq, Repr

/-- JavaScript's `typeof` operator (note `typeof null === "object"`). -/
def jsTypeof : JSValue → String
  | .undefined => "undefined"
  | .null => "object"
  | .boolean _ => "boolean"
  | .number _ => "number"
  | .string _ => "string"
  | .object _ => "object"
  | .function _ => "function"
  | .symbol _ => "symbol"

/-- JavaScript loose equality against `null` (`v == null`): true exactly for
`null` and `undefined`. -/
def jsLooseEqNull : JSValue → Bool
  | .null => true
  | .undefined => true
  | _ => false

/-- JavaScript truthiness, as used by `updater || ReactNoopUpdateQueue`. -/
def jsTruthy : JSValue → Bool
  | .undefined => false
  | .null => false
  | .boolean b => b
  | .number n => decide (n ≠ 0)
  | .string s => decide (s ≠ "")
  | .object _ => true
  | .function _ => true
  | .symbol _ => true

/-- `v` is an object value (an object reference; excludes `null`). -/
def isObjectValue : JSValue → Bool
  | .object _ => true
  | _ => false

/-- `v` is a function value. -/
def isFunctionValue : JSValue → Bool
  | .function _ => true
  | _ => false

/-- Modelled from the spec: `ReactNoopUpdateQueue` (imported from
`./ReactNoopUpdateQueue`, absent from the sources) is the no-op placeholder
update queue object that `Component` binds when the host supplies no
updater.  Only its identity matters here; it is a distinguished heap object. -/
def ReactNoopUpdateQueue : JSValue := .object 0

/-- Heap id of the module-level `emptyObject` literal (`ReactBaseClasses.js`,
line 13). -/
def emptyObjectId : Nat := 1

/-- The shared `emptyObject` placeholder (`const emptyObject = {}`). -/
def emptyObject : JSValue := .object emptyObjectId

/-- The set of object ids frozen during module initialization:
`if (__DEV__) { Object.freeze(emptyObject); }` freezes `emptyObject` in
development builds only. -/
def moduleFrozenIds (dev : Bool) : List Nat :=
  if dev then [emptyObjectId] else []

/-- Whether the object with the given id is frozen after module
initialization in a build with the given `__DEV__` flag. -/
def isFrozenAfterInit (dev : Bool) (id : Nat) : Bool :=
  (moduleFrozenIds dev).contains id

/-- The marker object assigned by `Component.prototype.isReactComponent = {}`
(line 35). -/
def isReactComponentMarker : JSValue := .object 2

/-- Modelled from the spec: `shared/invariant` is absent from the sources;
per the spec it signals an invariant violation — a thrown descriptive
error — exactly when its condition is false, and does nothing otherwise. -/
def invariantCheck (cond : Bool) (msg : String) : Option String :=
  if cond then none else some msg

/-- A warning event as emitted by `lowPriorityWarning`: the format string
together with its arguments (console formatting is host behaviour). -/
structure WarningEvent where
  format : String
  args : List String
deriving DecidableEq, Repr

/-- Modelled from the spec: `shared/lowPriorityWarning` is absent from the
sources; per the spec it emits exactly one warning when its condition is
false, and none otherwise. -/
def lowPriorityWarning (cond : Bool) (format : String) (args : List String) :
    List WarningEvent :=
  if cond then [] else [{ format := format, args := args }]

/-- A deprecated-API accessor installed by `defineDeprecationWarning`
(lines 127-140): it remembers the method name and the `info` pair
`[methodName, explanation]` from `deprecatedAPIs`. -/
structure DeprecatedAccessor where
  methodName : String
  info : String × String
deriving DecidableEq, Repr

/-- The body of the getter installed by `defineDeprecationWarning`: it calls
`lowPriorityWarning(false, '%s(...) is deprecated in plain JavaScript React
classes. %s', info[0], info[1])` and returns `undefined`. -/
def deprecatedGetterBody (a : DeprecatedAccessor) : JSValue × List WarningEvent :=
  (JSValue.undefined,
   lowPriorityWarning false
     "%s(...) is deprecated in plain JavaScript React classes. %s"
     [a.info.1, a.info.2])

/-- The `deprecatedAPIs` table (lines 115-126). -/
def deprecatedAPIs : List (String × (String × String)) :=
  [("isMounted",
    ("isMounted",
     "Instead, make sure to clean up subscriptions and pending requests in " ++
       "componentWillUnmount to prevent memory leaks.")),
   ("replaceState",
    ("replaceState",
     "Refactor your code to use setState instead (see " ++
       "https://github.com/facebook/react/issues/3236)."))]

/-- The accessor installed for `isMounted` in development builds. -/
def isMountedAccessor : DeprecatedAccessor :=
  { methodName := "isMounted",
    info := ("isMounted",
      "Instead, make sure to clean up subscriptions and pending requests in " ++
        "componentWillUnmount to prevent memory leaks.") }

/-- The accessor installed for `replaceState` in development builds. -/
def replaceStateAccessor : DeprecatedAccessor :=
  { methodName := "replaceState",
    info := ("replaceState",
      "Refactor your code to use setState instead (see " ++
        "https://github.com/facebook/react/issues/3236).") }

/-- References to the functions defined in `ReactBaseClasses.js`, used to
express that prototype slots hold the very same function. -/
inductive FunRef where
  | componentCtor
  | pureComponentCtor
  | componentSetStateFun
  | componentForceUpdateFun
deriving DecidableEq, Repr

/-- A (flattened) prototype: the slots relevant to this module.  Lookup
through the prototype chain is modelled by copying inherited slots, so a
slot equal to `none` means the property is absent along the whole chain. -/
structure Prototype where
  ctorRef : FunRef
  setStateRef : FunRef
  forceUpdateRef : FunRef
  isReactComponent : Option JSValue
  isPureReactComponent : Option JSValue
  isMounted : Option DeprecatedAccessor
  replaceState : Option DeprecatedAccessor
deriving DecidableEq, Repr

/-- `Component.prototype` after module initialization: `isReactComponent`
is set to a fresh empty object (line 35), `setState` and `forceUpdate` are
`Component`'s own functions, and in development builds the deprecation
accessors for `isMounted` and `replaceState` are installed. -/
def componentPrototype (dev : Bool) : Prototype :=
  { ctorRef := .componentCtor,
    setStateRef := .componentSetStateFun,
    forceUpdateRef := .componentForceUpdateFun,
    isReactComponent := some isReactComponentMarker,
    isPureReactComponent := none,
    isMounted := if dev then some isMountedAccessor else none,
    replaceState := if dev then some replaceStateAccessor else none }

/-- `PureComponent.prototype` (lines 159-164): `new ComponentDummy()` (whose
prototype is `Component.prototype`, modelled by flattening the chain), then
`constructor` is reset to `PureComponent`, `Object.assign` copies
`Component.prototype`'s own enumerable properties, and finally
`isPureReactComponent` is set to `true`. -/
def pureComponentPrototype (dev : Bool) : Prototype :=
  let dummy := componentPrototype dev
  let withCtor := { dummy with ctorRef := FunRef.pureComponentCtor }
  let assigned :=
    { withCtor with
        isReactComponent := (componentPrototype dev).isReactComponent,
        setStateRef := (componentPrototype dev).setStateRef,
        forceUpdateRef := (componentPrototype dev).forceUpdateRef }
  { assigned with isPureReactComponent := some (JSValue.boolean true) }

/-- A component instance: its own fields, in assignment order, and its
prototype. -/
structure JSInstance where
  fields : List (String × JSValue)
  proto : Prototype
deriving DecidableEq, Repr

/-- Property read on an instance for data properties: own fields first, then
the (flattened) prototype; absent properties read as `undefined`. -/
def JSInstance.get (self : JSInstance) (name : String) : JSValue :=
  match self.fields.lookup name with
  | some v => v
  | none =>
    if name = "isReactComponent" then
      (self.proto.isReactComponent).getD JSValue.undefined
    else if name = "isPureReactComponent" then
      (self.proto.isPureReactComponent).getD JSValue.undefined
    else
      JSValue.undefined

/-- The body of `function Component(props, context, updater)` (lines 22-33):
the four assignments it performs, in order. -/
def componentCtorAssignments (props context updater : JSValue) :
    List (String × JSValue) :=
  [("props", props),
   ("context", context),
   ("refs", emptyObject),
   ("updater", if jsTruthy updater then updater else ReactNoopUpdateQueue)]

/-- `new Component(props, context, updater)` in a build with the given
`__DEV__` flag. -/
def Component (dev : Bool) (props context updater : JSValue) : JSInstance :=
  { fields := componentCtorAssignments props context updater,
    proto := componentPrototype dev }

/-- The body of `function PureComponent(props, context, updater)`
(lines 150-157); it is textually the same four assignments as `Component`'s. -/
def pureComponentCtorAssignments (props context updater : JSValue) :
    List (String × JSValue) :=
  [("props", props),
   ("context", context),
   ("refs", emptyObject),
   ("updater", if jsTruthy updater then updater else ReactNoopUpdateQueue)]

/-- `new PureComponent(props, context, updater)` in a build with the given
`__DEV__` flag. -/
def PureComponent (dev : Bool) (props context updater : JSValue) : JSInstance :=
  { fields := pureComponentCtorAssignments props context updater,
    proto := pureComponentPrototype dev }

/-- A call forwarded to the bound updater, with the receiver
(`this.updater`), the instance passed as first argument (`this`), the
remaining arguments, and the fixed operation label. -/
inductive UpdaterCall where
  | enqueueSetState (updater : JSValue) (inst : JSInstance)
      (partialState : JSValue) (callback : JSValue) (label : String)
  | enqueueForceUpdate (updater : JSValue) (inst : JSInstance)
      (callback : JSValue) (label : String)
deriving DecidableEq, Repr

/-- The outcome of invoking `setState` or `forceUpdate`: the error thrown
(if any), the calls forwarded to the updater, and the instance afterwards. -/
structure CallResult where
  thrown : Option String
  calls : List UpdaterCall
  self : JSInstance
deriving DecidableEq, Repr

/-- The error message of the `setState` invariant (lines 74-81). -/
def setStateInvariantMsg : String :=
  "setState(...): takes an object of state variables to update or a " ++
    "function which returns an object of state variables."

/-- `Component.prototype.setState` (lines 73-82): check the invariant that
the first argument is an object, a function, or `== null`; on success
forward one `enqueueSetState(this, partialState, callback, 'setState')`
call to `this.updater`.  No field of the instance is assigned. -/
def Component.setState (self : JSInstance) (partialState callback : JSValue) :
    CallResult :=
  match invariantCheck
      ((jsTypeof partialState == "object") ||
        (jsTypeof partialState == "function") ||
        jsLooseEqNull partialState)
      setStateInvariantMsg with
  | some msg => { thrown := some msg, calls := [], self := self }
  | none =>
    { thrown := none,
      calls := [UpdaterCall.enqueueSetState (self.get "updater") self
        partialState callback "setState"],
      self := self }

/-- `Component.prototype.forceUpdate` (lines 101-103): forward one
`enqueueForceUpdate(this, callback, 'forceUpdate')` call to `this.updater`.
No field of the instance is assigned. -/
def Component.forceUpdate (self : JSInstance) (callback : JSValue) :
    CallResult :=
  { thrown := none,
    calls := [UpdaterCall.enqueueForceUpdate (self.get "updater") self
      callback "forceUpdate"],
    self := self }

/-- The symbol `REACT_CONCURRENT_MODE_TYPE` from `shared/ReactSymbols`,
a distinguished marker value. -/
def REACT_CONCURRENT_MODE_TYPE : JSValue := .symbol 10

/-- The fields of the `React` namespace object relevant to the
feature-flag-gated mutation in `React.js`; `none` means the property is
absent from the object. -/
structure ReactNamespaceShape where
  ConcurrentMode : Option JSValue
  unstable_ConcurrentMode : Option JSValue
deriving DecidableEq, Repr

/-- The `React` object literal as constructed (`React.js` lines 51-97):
`unstable_ConcurrentMode` is present and bound to the marker type, and no
`ConcurrentMode` property exists. -/
def ReactNamespaceConstructed : ReactNamespaceShape :=
  { ConcurrentMode := none,
    unstable_ConcurrentMode := some REACT_CONCURRENT_MODE_TYPE }

/-- The `React` object after the single flag-gated mutation (`React.js`
lines 115-118): when `enableStableConcurrentModeAPIs` holds,
`React.ConcurrentMode = REACT_CONCURRENT_MODE_TYPE` and
`React.unstable_ConcurrentMode = undefined`; otherwise the object is left
untouched. -/
def ReactNamespaceFinal (enableStableConcurrentModeAPIs : Bool) :
    ReactNamespaceShape :=
  if enableStableConcurrentModeAPIs then
    { ReactNamespaceConstructed with
        ConcurrentMode := some REACT_CONCURRENT_MODE_TYPE,
        unstable_ConcurrentMode := some JSValue.undefined }
  else
    ReactNamespaceConstructed

/-- A sample bound updater object, used to instantiate universally
quantified statements. -/
def sampleUpdater : JSValue := .object 7

/-- A sample component instance constructed in a development build. -/
def sampleSelf : JSInstance :=
  Component true (JSValue.number 1) JSValue.null sampleUpdater

/-- Helper: neither branch of `setState` assigns any field of the
instance. -/
theorem setState_self_eq (self : JSInstance) (v cb : JSValue) :
    (Component.setState self v cb).self = self := by
  unfold Component.setState
  cases invariantCheck
      ((jsTypeof v == "object") || (jsTypeof v == "function") ||
        jsLooseEqNull v) setStateInvariantMsg <;> rfl

/-- C1: `setState` raises the descriptive invariant error exactly when its
first argument is neither an object, nor a function, nor `null`/`undefined`;
in every other case no error is raised. -/
theorem setState_error_iff (self : JSInstance) (v cb : JSValue) :
    ((Component.setState self v cb).thrown = some setStateInvariantMsg ↔
      ¬(isObjectValue v = true ∨ isFunctionValue v = true ∨
        v = JSValue.null ∨ v = JSValue.undefined)) ∧
    ((Component.setState self v cb).thrown = none ↔
      (isObjectValue v = true ∨ isFunctionValue v = true ∨
        v = JSValue.null ∨ v = JSValue.undefined)) := by
  cases v <;>
    simp [Component.setState, invariantCheck, jsTypeof, jsLooseEqNull,
      isObjectValue, isFunctionValue, setStateInvariantMsg]

/-- C2: a successful `setState(p, cb)` forwards exactly one
`enqueueSetState(this, p, cb, 'setState')` call to the bound updater and
leaves the instance unchanged; `forceUpdate(cb)` forwards exactly one
`enqueueForceUpdate(this, cb, 'forceUpdate')` call. -/
theorem setState_forceUpdate_forward (self : JSInstance) (v cb : JSValue)
    (h : isObjectValue v = true ∨ isFunctionValue v = true ∨
      v = JSValue.null ∨ v = JSValue.undefined) :
    Component.setState self v cb =
      { thrown := none,
        calls := [UpdaterCall.enqueueSetState (JSInstance.get self "updater")
          self v cb "setState"],
        self := self } ∧
    Component.forceUpdate self cb =
      { thrown := none,
        calls := [UpdaterCall.enqueueForceUpdate (JSInstance.get self "updater")
          self cb "forceUpdate"],
        self := self } := by
  refine ⟨?_, rfl⟩
  rcases h with h | h | h | h <;> cases v <;>
    simp_all [Component.setState, invariantCheck, jsTypeof, jsLooseEqNull,
      isObjectValue, isFunctionValue]

/-- Witness for C2 at a concrete instance and arguments. -/
theorem setState_forceUpdate_forward_witness :
    (isObjectValue JSValue.null = true ∨ isFunctionValue JSValue.null = true ∨
      JSValue.null = JSValue.null ∨ JSValue.null = JSValue.undefined) ∧
    (Component.setState sampleSelf JSValue.null JSValue.undefined =
      { thrown := none,
        calls := [UpdaterCall.enqueueSetState
          (JSInstance.get sampleSelf "updater") sampleSelf JSValue.null
          JSValue.undefined "setState"],
        self := sampleSelf } ∧
    Component.forceUpdate sampleSelf JSValue.undefined =
      { thrown := none,
        calls := [UpdaterCall.enqueueForceUpdate
          (JSInstance.get sampleSelf "updater") sampleSelf JSValue.undefined
          "forceUpdate"],
        self := sampleSelf }) :=
  ⟨by decide,
   setState_forceUpdate_forward sampleSelf JSValue.null JSValue.undefined
     (by decide)⟩

/-- C3 counterexample: in a production build (`__DEV__ = false`) the shared
placeholder is not frozen, so "refs equals the placeholder and the
placeholder is frozen" fails for an instance constructed there. -/
theorem refs_frozen_claim_false_in_prod :
    ¬(JSInstance.get (Component false JSValue.null JSValue.null
        JSValue.undefined) "refs" = emptyObject ∧
      isFrozenAfterInit false emptyObjectId = true) := by
  decide

/-- C3 (amended): immediately after construction `refs` equals the single
shared empty placeholder; the placeholder is frozen in development builds
(only); and the base class never mutates the instance through `setState` or
`forceUpdate`. -/
theorem refs_shared_placeholder (dev : Bool) (p c u : JSValue) :
    JSInstance.get (Component dev p c u) "refs" = emptyObject ∧
    JSInstance.get (PureComponent dev p c u) "refs" = emptyObject ∧
    isFrozenAfterInit true emptyObjectId = true ∧
    (∀ v cb, (Component.setState (Component dev p c u) v cb).self =
      Component dev p c u) ∧
    (∀ cb, (Component.forceUpdate (Component dev p c u) cb).self =
      Component dev p c u) := by
  refine ⟨rfl, rfl, by decide, ?_, fun cb => rfl⟩
  intro v cb
  exact setState_self_eq _ v cb

/-- C4: construction stores exactly the given `props` and `context`, binds
`updater` to the given updater when an updater object is supplied, and to
`ReactNoopUpdateQueue` when the argument is absent (`undefined`). -/
theorem component_ctor_stores (dev : Bool) (p c u : JSValue)
    (h : isObjectValue u = true ∨ isFunctionValue u = true) :
    JSInstance.get (Component dev p c u) "props" = p ∧
    JSInstance.get (Component dev p c u) "context" = c ∧
    JSInstance.get (Component dev p c u) "updater" = u ∧
    JSInstance.get (Component dev p c JSValue.undefined) "updater" =
      ReactNoopUpdateQueue := by
  refine ⟨rfl, rfl, ?_, rfl⟩
  rcases h with h | h <;> cases u <;> simp_all [isObjectValue, isFunctionValue] <;> rfl

/-- Witness for C4 at a concrete updater object. -/
theorem component_ctor_stores_witness :
    (isObjectValue sampleUpdater = true ∨ isFunctionValue sampleUpdater = true) ∧
    (JSInstance.get (Component true (JSValue.number 1) JSValue.null
        sampleUpdater) "props" = JSValue.number 1 ∧
      JSInstance.get (Component true (JSValue.number 1) JSValue.null
        sampleUpdater) "context" = JSValue.null ∧
      JSInstance.get (Component true (JSValue.number 1) JSValue.null
        sampleUpdater) "updater" = sampleUpdater ∧
      JSInstance.get (Component true (JSValue.number 1) JSValue.null
        JSValue.undefined) "updater" = ReactNoopUpdateQueue) :=
  ⟨Or.inl (by decide),
   component_ctor_stores true (JSValue.number 1) JSValue.null sampleUpdater
     (Or.inl (by decide))⟩

/-- C5: a `PureComponent` is constructed with exactly the same own fields as
a `Component` built from the same arguments; its prototype holds the very
same `setState` and `forceUpdate` functions, and differs from
`Component.prototype` only in the `constructor` slot and the
`isPureReactComponent` marker flag. -/
theorem pureComponent_refines_component (dev : Bool) (p c u : JSValue) :
    (PureComponent dev p c u).fields = (Component dev p c u).fields ∧
    (pureComponentPrototype dev).setStateRef =
      (componentPrototype dev).setStateRef ∧
    (pureComponentPrototype dev).forceUpdateRef =
      (componentPrototype dev).forceUpdateRef ∧
    pureComponentPrototype dev =
      { componentPrototype dev with
          ctorRef := FunRef.pureComponentCtor,
          isPureReactComponent := some (JSValue.boolean true) } :=
  ⟨rfl, rfl, rfl, rfl⟩

/-- C6: every `PureComponent` instance reads `isPureReactComponent` as
`true`, while a plain `Component` instance has no such flag (the read gives
`undefined`). -/
theorem pure_marker_flag (dev : Bool) (p c u : JSValue) :
    JSInstance.get (PureComponent dev p c u) "isPureReactComponent" =
      JSValue.boolean true ∧
    JSInstance.get (Component dev p c u) "isPureReactComponent" =
      JSValue.undefined ∧
    (componentPrototype dev).isPureReactComponent = none :=
  ⟨rfl, rfl, rfl⟩

/-- C7: the facade's single flag-gated mutation: with the flag set,
`ConcurrentMode` is the marker type and `unstable_ConcurrentMode` is
`undefined`; with the flag clear the object is exactly as constructed, with
`unstable_ConcurrentMode` the marker type and `ConcurrentMode` absent. -/
theorem concurrentMode_flag_mutation :
    ReactNamespaceFinal true =
      { ConcurrentMode := some REACT_CONCURRENT_MODE_TYPE,
        unstable_ConcurrentMode := some JSValue.undefined } ∧
    ReactNamespaceFinal false =
      { ConcurrentMode := none,
        unstable_ConcurrentMode := some REACT_CONCURRENT_MODE_TYPE } ∧
    ReactNamespaceFinal false = ReactNamespaceConstructed :=
  ⟨rfl, rfl, rfl⟩

/-- C8: in development builds the deprecated `isMounted` and `replaceState`
members are present as accessors; each access returns `undefined` and emits
exactly one deprecation warning; in production builds the members are
absent. -/
theorem deprecated_accessors_dev :
    (componentPrototype true).isMounted = some isMountedAccessor ∧
    (componentPrototype true).replaceState = some replaceStateAccessor ∧
    (deprecatedGetterBody isMountedAccessor).1 = JSValue.undefined ∧
    (deprecatedGetterBody isMountedAccessor).2.length = 1 ∧
    (deprecatedGetterBody replaceStateAccessor).1 = JSValue.undefined ∧
    (deprecatedGetterBody replaceStateAccessor).2.length = 1 ∧
    (componentPrototype false).isMounted = none ∧
    (componentPrototype false).replaceState = none :=
  ⟨rfl, rfl, rfl, rfl, rfl, rfl, rfl, rfl⟩

/-- C9: when the `setState` validation fails, the descriptive error is
thrown, no call is forwarded to the updater, and the instance — hence its
`props`, `context`, `refs` and `updater` fields — is unchanged. -/
theorem failed_setState_no_effect (self : JSInstance) (v cb : JSValue)
    (h : ¬(isObjectValue v = true ∨ isFunctionValue v = true ∨
      v = JSValue.null ∨ v = JSValue.undefined)) :
    Component.setState self v cb =
      { thrown := some setStateInvariantMsg, calls := [], self := self } := by
  cases v <;>
    simp_all [Component.setState, invariantCheck, jsTypeof, jsLooseEqNull,
      isObjectValue, isFunctionValue]

/-- Witness for C9 at a concrete invalid argument. -/
theorem failed_setState_no_effect_witness :
    ¬(isObjectValue (JSValue.number 5) = true ∨
      isFunctionValue (JSValue.number 5) = true ∨
      JSValue.number 5 = JSValue.null ∨
      JSValue.number 5 = JSValue.undefined) ∧
    Component.setState sampleSelf (JSValue.number 5) JSValue.undefined =
      { thrown := some setStateInvariantMsg, calls := [],
        self := sampleSelf } :=
  ⟨by decide,
   failed_setState_no_effect sampleSelf (JSValue.number 5) JSValue.undefined
     (by decide)⟩

/-- C10: both constructors assign exactly the four fields `props`,
`context`, `refs`, `updater` in that order and nothing else; in particular
`state` is never assigned and reads as `undefined` after base
construction. -/
theorem ctor_assigns_exactly_four (dev : Bool) (p c u : JSValue) :
    (Component dev p c u).fields.map Prod.fst =
      ["props", "context", "refs", "updater"] ∧
    (PureComponent dev p c u).fields.map Prod.fst =
      ["props", "context", "refs", "updater"] ∧
    (Component dev p c u).fields.lookup "state" = none ∧
    (PureComponent dev p c u).fields.lookup "state" = none ∧
    JSInstance.get (Component dev p c u) "state" = JSValue.undefined ∧
    JSInstance.get (PureComponent dev p c u) "state" = JSValue.undefined :=
  ⟨rfl, rfl, rfl, rfl, rfl, rfl⟩
